import Mathlib

/-!
# Verification of the mine-scrapper image search-and-store service

Shallow embedding of the core logic of the repository:

* `src/services/imageScraper.js`  — identity rotation, the DuckDuckGo search
  retry loop, and result filtering;
* `src/services/vpsImageStorage.js` — the concurrent fetch/transform/store
  pipeline backed by the local filesystem;
* `src/services/firebaseStorage.js` — the Firebase-backed variant;
* `src/index.js` — request validation of the `POST /api/search-images` route.

External effects (HTTP requests, the `sharp` image library, the filesystem,
`Date.now()`, `uuidv4()`, `Math.random()`) are modelled as explicit parameters
(oracles), so every function below is a pure, executable Lean definition.
-/

namespace MineScrapper

/-! ## JavaScript string operations

`strHasPrefixL hay needle` models `hay.startsWith(needle)` on char lists,
`strIncludesL hay needle` models `hay.includes(needle)`. -/

def strHasPrefixL : List Char → List Char → Bool
  | _, [] => true
  | [], _ :: _ => false
  | a :: as, p :: ps => a == p && strHasPrefixL as ps

def strIncludesL : List Char → List Char → Bool
  | [], needle => needle.isEmpty
  | a :: rest, needle => strHasPrefixL (a :: rest) needle || strIncludesL rest needle

/-- `url.includes(needle)` of JavaScript. -/
def strIncludes (hay needle : String) : Bool := strIncludesL hay.data needle.data

/-- `url.startsWith(needle)` of JavaScript. -/
def strStartsWith (hay needle : String) : Bool := strHasPrefixL hay.data needle.data

/-- `s.trim()` of JavaScript: strip whitespace from both ends. -/
def jsTrim (s : String) : String :=
  ⟨((s.data.dropWhile Char.isWhitespace).reverse.dropWhile Char.isWhitespace).reverse⟩

/-- `s.toLowerCase()` of JavaScript. -/
def jsToLower (s : String) : String := ⟨s.data.map Char.toLower⟩

namespace ImageScraper

/-! ## src/services/imageScraper.js -/

/-- The constructor's fixed `this.userAgents` pool (imageScraper.js lines 7-13). -/
def defaultUserAgents : List String :=
  ["Mozilla/5.0 (Windows NT 10.0; Win64; x64) AppleWebKit/537.36 (KHTML, like Gecko) Chrome/120.0.0.0 Safari/537.36",
   "Mozilla/5.0 (Windows NT 10.0; Win64; x64) AppleWebKit/537.36 (KHTML, like Gecko) Chrome/119.0.0.0 Safari/537.36",
   "Mozilla/5.0 (Macintosh; Intel Mac OS X 10_15_7) AppleWebKit/537.36 (KHTML, like Gecko) Chrome/120.0.0.0 Safari/537.36",
   "Mozilla/5.0 (Windows NT 10.0; Win64; x64; rv:121.0) Gecko/20100101 Firefox/121.0",
   "Mozilla/5.0 (Macintosh; Intel Mac OS X 10_15_7) AppleWebKit/605.1.15 (KHTML, like Gecko) Version/17.2 Safari/605.1.15"]

/-- Mutable fields of the `ImageScraper` instance: the two pools (fixed after the
constructor) and the two rotation cursors.  The class invariant maintained by the
code is `currentUserAgentIndex < userAgents.length` and
`currentProxyIndex < proxies.length` (when the pools are non-empty). -/
structure ScraperState where
  userAgents : List String
  proxies : List String
  currentUserAgentIndex : Nat
  currentProxyIndex : Nat
deriving Repr, DecidableEq

/-- State right after the constructor ran: both cursors at 0, the fixed user-agent
pool, and the proxies parsed from `PROXY_LIST` (passed in as a parameter). -/
def mkInitialState (proxies : List String) : ScraperState :=
  { userAgents := defaultUserAgents, proxies := proxies
    currentUserAgentIndex := 0, currentProxyIndex := 0 }

/-- `getNextUserAgent()`: return `userAgents[currentUserAgentIndex]` and advance the
cursor by one modulo the pool size.  (The code indexes the array directly; under the
class invariant the cursor is always in range, which `getD` reflects.) -/
def getNextUserAgent (userAgents : List String) (i : Nat) : String × Nat :=
  (userAgents.getD i "", (i + 1) % userAgents.length)

/-- `getNextProxy()`: `null` when the pool is empty (cursor untouched), otherwise
`proxies[currentProxyIndex]` with the cursor advanced modulo the pool size. -/
def getNextProxy (proxies : List String) (i : Nat) : Option String × Nat :=
  if proxies.length = 0 then (none, i)
  else (some (proxies.getD i ""), (i + 1) % proxies.length)

/-- The parts of the axios request configuration built by `createAxiosConfig`
that depend on its arguments (the remaining headers are constants). -/
structure AxiosConfig where
  userAgent : String
  accept : String
  secFetchDest : String
  secFetchMode : String
  secFetchSite : String
  xRequestedWith : Option String
  referer : Option String
  upgradeInsecureRequests : Option String
  proxy : Option String
  timeout : Nat
  maxRedirects : Nat
deriving Repr, DecidableEq

/-- `createAxiosConfig(proxy, isApiCall)`: draws the next user agent (advancing the
rotation cursor — hence the returned state), sets page- or API-flavored headers,
and attaches the proxy agent when a proxy is given. -/
def createAxiosConfig (s : ScraperState) (proxy : Option String) (isApiCall : Bool) :
    AxiosConfig × ScraperState :=
  let (userAgent, newIdx) := getNextUserAgent s.userAgents s.currentUserAgentIndex
  ({ userAgent := userAgent
     accept := if isApiCall then "application/json, text/javascript, */*; q=0.01"
       else "text/html,application/xhtml+xml,application/xml;q=0.9,image/webp,image/avif,*/*;q=0.8"
     secFetchDest := if isApiCall then "empty" else "document"
     secFetchMode := if isApiCall then "cors" else "navigate"
     secFetchSite := if isApiCall then "same-origin" else "none"
     xRequestedWith := if isApiCall then some "XMLHttpRequest" else none
     referer := if isApiCall then some "https://duckduckgo.com/" else none
     upgradeInsecureRequests := if isApiCall then none else some "1"
     proxy := proxy
     timeout := 45000
     maxRedirects := 5 },
   { s with currentUserAgentIndex := newIdx })

/-- The identity draws of one `searchImages` attempt (lines 117-142): one
`getNextProxy()` call at the start, then `createAxiosConfig(proxy, false)` for the
HTML page fetch and `createAxiosConfig(proxy, true)` for the JSON API call. -/
def attemptConfigs (s : ScraperState) : AxiosConfig × AxiosConfig × ScraperState :=
  let (proxy, pIdx) := getNextProxy s.proxies s.currentProxyIndex
  let s1 := { s with currentProxyIndex := pIdx }
  let (searchConfig, s2) := createAxiosConfig s1 proxy false
  let (imageApiConfig, s3) := createAxiosConfig s2 proxy true
  (searchConfig, imageApiConfig, s3)

/-- One raw entry of the DuckDuckGo JSON results, with the fields read by
`processImageResults` (`image`, `url`, `title`); `none` models an absent field. -/
structure RawResult where
  image : Option String
  url : Option String
  title : Option String
deriving Repr, DecidableEq

/-- A filtered candidate as pushed by `processImageResults`:
`{ url: imageUrl, source: sourceUrl, title: result.title || 'Untitled' }`. -/
structure ImageCandidate where
  url : String
  source : Option String
  title : String
deriving Repr, DecidableEq

/-- `isWikipediaSource(url)`: false for a missing/empty URL, otherwise true iff the
lowercased URL contains one of the excluded-domain markers. -/
def isWikipediaSource (url : Option String) : Bool :=
  match url with
  | none => false
  | some u =>
    if u = "" then false
    else
      strIncludes (jsToLower u) "wikipedia.org" || strIncludes (jsToLower u) "wikimedia.org" ||
        strIncludes (jsToLower u) "wiki"

/-- `imageExtensions` of `isValidImageUrl`. -/
def imageExtensions : List String :=
  [".jpg", ".jpeg", ".png", ".gif", ".webp", ".bmp", ".svg"]

/-- `hasImageExtension`: some known extension occurs in the lowercased URL. -/
def hasImageExtension (url : String) : Bool :=
  imageExtensions.any fun ext => strIncludes (jsToLower url) ext

/-- `isLikelyImage`: the URL contains `image`, `photo` or `pic`, or a known
extension. -/
def isLikelyImage (url : String) : Bool :=
  strIncludes url "image" || strIncludes url "photo" || strIncludes url "pic" ||
    hasImageExtension url

/-- `isValidImageUrl(url)`: guards for a present string that starts with `"http"`,
then the permissive image-likeness heuristic plus a minimum length. -/
def isValidImageUrl (url : String) : Bool :=
  if url = "" then false
  else if !(strStartsWith url "http") then false
  else isLikelyImage url && decide (url.length > 10)

/-- The candidate object pushed onto `validImages` for a surviving entry. -/
def mkCandidate (imageUrl : String) (sourceUrl : Option String) (title : Option String) :
    ImageCandidate :=
  { url := imageUrl, source := sourceUrl
    title := match title with | none => "Untitled" | some "" => "Untitled" | some t => t }

/-- The loop body of `processImageResults`, with `validImages` as accumulator.
Each iteration first checks `validImages.length >= limit` (break), then skips
entries with a falsy `image` field, then Wikipedia-flagged entries, and finally
pushes the entry if `isValidImageUrl` accepts it. -/
def processResultsGo (limit : Nat) : List RawResult → List ImageCandidate → List ImageCandidate
  | [], validImages => validImages
  | result :: rest, validImages =>
    if limit ≤ validImages.length then validImages
    else
      match result.image with
      | none => processResultsGo limit rest validImages
      | some imageUrl =>
        if imageUrl = "" then processResultsGo limit rest validImages
        else if isWikipediaSource result.url || isWikipediaSource (some imageUrl) then
          processResultsGo limit rest validImages
        else if isValidImageUrl imageUrl then
          processResultsGo limit rest (validImages ++ [mkCandidate imageUrl result.url result.title])
        else processResultsGo limit rest validImages

/-- `processImageResults(results, limit)`. -/
def processImageResults (results : List RawResult) (limit : Nat) : List ImageCandidate :=
  processResultsGo limit results []

/-- The backoff computed between failed attempts (line 180):
`2000 + attempt * 1000 + Math.random() * 2000`, with the random jitter made an
explicit argument (`0 ≤ jitter < 2000`). -/
def waitTime (attempt jitter : Nat) : Nat := 2000 + attempt * 1000 + jitter

/-- Observable outcome of a `searchImages` call: how many attempts ran, the
backoff delays slept between them, and either the returned candidates or the
terminal error's recorded `lastError` (`none` models `lastError = null`). -/
structure SearchRunResult (Res : Type) where
  attemptsMade : Nat
  waits : List Nat
  outcome : Except (Option String) Res
deriving Repr

/-- The retry loop of `searchImages` (lines 112-184).  `att i` is the body of
attempt `i` — proxy draw, page fetch, vqd extraction, pacing, API call and
filtering — returning candidates or the thrown error message; `jitter i` is the
random part of the backoff before attempt `i + 1`.  `fuel` is the number of
attempts still allowed (`maxRetries - attempt`); on a failure with further
attempts remaining the loop sleeps `waitTime` and continues, otherwise it throws
carrying `lastError`. -/
def searchGo {Res : Type} (att : Nat → Except String Res) (jitter : Nat → Nat) :
    Nat → Nat → Option String → List Nat → SearchRunResult Res
  | 0, attempt, lastError, waits => ⟨attempt, waits, .error lastError⟩
  | fuel + 1, attempt, _lastError, waits =>
    match att attempt with
    | .ok r => ⟨attempt + 1, waits, .ok r⟩
    | .error e =>
      if fuel = 0 then ⟨attempt + 1, waits, .error (some e)⟩
      else searchGo att jitter fuel (attempt + 1) (some e)
          (waits ++ [waitTime attempt (jitter attempt)])

/-- `searchImages(keyword, limit)` retry structure:
`maxRetries = Math.min(8, proxies.length)` and the loop starts at attempt 0 with
`lastError = null`. -/
def searchImagesRun {Res : Type} (att : Nat → Except String Res) (jitter : Nat → Nat)
    (proxies : List String) : SearchRunResult Res :=
  searchGo att jitter (min 8 proxies.length) 0 none []

/-- Successive outputs of `n` `getNextUserAgent()` calls starting at cursor `i`. -/
def uaRotationOutputs (userAgents : List String) (i : Nat) : Nat → List String
  | 0 => []
  | n + 1 =>
    let (ua, i2) := getNextUserAgent userAgents i
    ua :: uaRotationOutputs userAgents i2 n

/-- Successive outputs of `n` `getNextProxy()` calls starting at cursor `j`. -/
def proxyRotationOutputs (proxies : List String) (j : Nat) : Nat → List (Option String)
  | 0 => []
  | n + 1 =>
    let (p, j2) := getNextProxy proxies j
    p :: proxyRotationOutputs proxies j2 n

end ImageScraper

/-- Raw image bytes (a Node `Buffer`). -/
abbrev Bytes := List Nat

/-- `keyword.replace(/[^a-zA-Z0-9]/g, '_').toLowerCase()` — the `sanitizedKeyword`
computed inside `FirebaseStorageService.generateFilename`. -/
def sanitizedKeyword (keyword : String) : String :=
  jsToLower ⟨keyword.data.map fun c => if c.isAlphanum then c else '_'⟩

namespace VPSImageStorage

/-! ## src/services/vpsImageStorage.js -/

/-- A successful per-candidate pipeline result as collected by
`processMultipleImages`. -/
structure UploadResult where
  url : String
  title : String
  source : Option String
  original_url : String
deriving Repr, DecidableEq

/-- The object literal built for a fulfilled upload:
`{ url: result.publicUrl, title: image.title || 'Untitled', source: image.source,
original_url: image.url }`. -/
def uploadResultOf (image : ImageScraper.ImageCandidate) (publicUrl : String) : UploadResult :=
  { url := publicUrl
    title := if image.title = "" then "Untitled" else image.title
    source := image.source
    original_url := image.url }

/-- `processMultipleImages(imageUrls, keyword, watermarkText)` (lines 40-68).
`downloadAndStore image index` abstracts `downloadAndStoreImage` — the download,
transform and disk write, which touch the network and filesystem — as `some
publicUrl` on success and `none` when it threw (the surrounding `catch` turns the
error into `null`).  `Promise.allSettled` resolves to the per-candidate values in
input order, and the final `filter` keeps the fulfilled non-null ones, so the
whole call never fails and returns the successful uploads in input order. -/
def processMultipleImages (downloadAndStore : ImageScraper.ImageCandidate → Nat → Option String) :
    List ImageScraper.ImageCandidate → Nat → List UploadResult
  | [], _ => []
  | image :: rest, index =>
    match downloadAndStore image index with
    | some publicUrl => uploadResultOf image publicUrl :: processMultipleImages downloadAndStore rest (index + 1)
    | none => processMultipleImages downloadAndStore rest (index + 1)

/-- Specification-side measurement: how many of the candidates fail in
`downloadAndStore` (used to state the exactly-one-failure scenario). -/
def countFailures (downloadAndStore : ImageScraper.ImageCandidate → Nat → Option String) :
    List ImageScraper.ImageCandidate → Nat → Nat
  | [], _ => 0
  | image :: rest, index =>
    (if downloadAndStore image index = none then 1 else 0) +
      countFailures downloadAndStore rest (index + 1)

/-- `applyWatermark(imageBuffer, watermarkText)` (lines 277-336): the SVG overlay
composite — abstracted as the `composite` oracle since it runs through `sharp` —
with the internal `catch` that falls back to the input buffer on any failure. -/
def applyWatermark (composite : Bytes → String → Except String Bytes)
    (imageBuffer : Bytes) (watermarkText : String) : Bytes :=
  match composite imageBuffer watermarkText with
  | .ok watermarkedBuffer => watermarkedBuffer
  | .error _ => imageBuffer

/-- `processImage(imageBuffer, watermarkText)` (lines 159-197).  `sharpEncode`
abstracts the `sharp` metadata read, conditional resize to width 1920 and WebP
re-encode (quality 85, effort 6); it returns `.error` when any of those throws.
The `catch` returns the original buffer unchanged, and a provided (non-empty)
watermark text routes the encoded bytes through `applyWatermark`. -/
def processImage (sharpEncode : Bytes → Except String Bytes)
    (composite : Bytes → String → Except String Bytes)
    (imageBuffer : Bytes) (watermarkText : Option String) : Bytes :=
  match sharpEncode imageBuffer with
  | .error _ => imageBuffer
  | .ok processedBuffer =>
    match watermarkText with
    | none => processedBuffer
    | some t => if t = "" then processedBuffer else applyWatermark composite processedBuffer t

/-- The `filename` local of `generateFilePaths` (line 209):
`` `${timestamp}_${uuid}_${index + 1}.webp` `` — `Date.now()` and the short UUID
are parameters.  Note the `keyword` argument of `generateFilePaths` does not
occur in it. -/
def storageFilename (timestamp : Nat) (uuid : String) (index : Nat) : String :=
  toString timestamp ++ "_" ++ uuid ++ "_" ++ toString (index + 1) ++ ".webp"

/-- The pair returned by `generateFilePaths(keyword, index)` (lines 205-214). -/
structure FilePaths where
  filePath : String
  publicUrl : String
deriving Repr, DecidableEq

/-- `generateFilePaths(keyword, index)`: `path.join(uploadDir, filename)` and
`` `${baseUrl}/images/${filename}` ``.  The `keyword` parameter is accepted (as in
the source) but never used. -/
def generateFilePaths (uploadDir baseUrl : String) (keyword : String) (index : Nat)
    (timestamp : Nat) (uuid : String) : FilePaths :=
  let _ := keyword
  let filename := storageFilename timestamp uuid index
  { filePath := uploadDir ++ "/" ++ filename
    publicUrl := baseUrl ++ "/images/" ++ filename }

end VPSImageStorage

namespace FirebaseStorageService

/-! ## src/services/firebaseStorage.js -/

/-- `processImage(imageBuffer)` (lines 90-124): same structure as the VPS variant
(metadata read, conditional resize, JPEG re-encode abstracted as `sharpEncode`)
but with no watermark step; the `catch` returns the original buffer. -/
def processImage (sharpEncode : Bytes → Except String Bytes) (imageBuffer : Bytes) : Bytes :=
  match sharpEncode imageBuffer with
  | .ok processedBuffer => processedBuffer
  | .error _ => imageBuffer

/-- `generateFilename(keyword, index)` (lines 168-174):
`` `images/${sanitizedKeyword}/${timestamp}_${uuid}_${index + 1}.jpg` ``. -/
def generateFilename (keyword : String) (index : Nat) (timestamp : Nat) (uuid : String) :
    String :=
  "images/" ++ sanitizedKeyword keyword ++ "/" ++ toString timestamp ++ "_" ++ uuid ++
    "_" ++ toString (index + 1) ++ ".jpg"

end FirebaseStorageService

namespace Index

/-! ## src/index.js — `POST /api/search-images` validation (lines 46-69) -/

/-- The request's `count` field as seen after `parseInt`: absent (so the
destructuring default `count = 3` applies), something `parseInt` cannot parse
(`NaN`), or an integer. -/
inductive CountInput where
  | missing
  | notNumeric
  | numeric (n : Int)
deriving Repr, DecidableEq

/-- `parseInt(count) || 3`: a missing count defaults to 3, `NaN` is falsy so it
becomes 3, and the integer 0 is also falsy so it, too, becomes 3. -/
def parsedCount : CountInput → Int
  | .missing => 3
  | .notNumeric => 3
  | .numeric n => if n = 0 then 3 else n

/-- `Math.min(Math.max(parseInt(count) || 3, 1), 10)` (line 69). -/
def imageCount (count : CountInput) : Int :=
  min (max (parsedCount count) 1) 10

/-- The two rejection branches of the handler's validation. -/
inductive RequestRejection where
  | invalidKeyword
  | keywordTooShort
deriving Repr, DecidableEq

/-- The handler's validation: reject a missing/non-string/empty keyword (400
`INVALID_KEYWORD`), reject a trimmed keyword shorter than 2 (400
`KEYWORD_TOO_SHORT`), otherwise proceed with the clamped `imageCount`. -/
def validateSearchRequest (keyword : Option String) (count : CountInput) :
    Except RequestRejection Int :=
  match keyword with
  | none => .error .invalidKeyword
  | some k =>
    if k = "" then .error .invalidKeyword
    else if (jsTrim k).length < 2 then .error .keywordTooShort
    else .ok (imageCount count)

end Index

/-! ## Specification-side predicates (from the claims' wording, for comparison) -/

/-- Modelled from the claim wording: the image URL's scheme is `http` or `https`. -/
def urlSchemeIsHttpOrHttps (url : String) : Bool :=
  strStartsWith url "http://" || strStartsWith url "https://"

/-- Modelled from the claim wording: the URL contains one of the image-indicating
keywords `image`, `photo`, `pic`. -/
def containsImageIndicatingKeyword (url : String) : Bool :=
  strIncludes url "image" || strIncludes url "photo" || strIncludes url "pic"

/-! ## Concrete fixtures used by witnesses and counterexamples -/

/-- An attempt body that always fails, as in the all-attempts-fail scenario. -/
def alwaysFailAttempt : Nat → Except String (List ImageScraper.ImageCandidate) :=
  fun _ => .error "Could not extract vqd token from DuckDuckGo"

/-- A jitter draw that is large on the first backoff and zero afterwards. -/
def decreasingJitter : Nat → Nat := fun i => if i = 0 then 1999 else 0

/-- A constant jitter draw. -/
def constJitter : Nat → Nat := fun _ => 100

/-- The scraper state right after construction with a one-proxy pool. -/
def sampleScraperState : ImageScraper.ScraperState :=
  ImageScraper.mkInitialState ["http://proxy1.example:8080"]

/-- An encoder oracle that always fails (e.g. `sharp` rejecting the input bytes). -/
def failingEncoder : Bytes → Except String Bytes :=
  fun _ => .error "Input buffer contains unsupported image format"

/-- A composite (watermark) oracle that succeeds by prepending a byte. -/
def sampleComposite : Bytes → String → Except String Bytes := fun b _ => .ok (0 :: b)

/-! ## Claim theorems -/

/-- C1: the claim states that with an empty proxy pool at least one attempt is
still performed (`maxAttempts = min(8, availableProxyCount or 1)`).  The code
instead computes `maxRetries = Math.min(8, proxies.length) = 0`, so the loop body
never runs: for every attempt behaviour the run makes 0 attempts, sleeps no
backoff, and throws with `lastError = null` — no recorded cause.  This evaluates
the code at the failing input (empty `PROXY_LIST`). -/
theorem C1_empty_proxy_pool_performs_zero_attempts (Res : Type)
    (att : Nat → Except String Res) (jitter : Nat → Nat) :
    ImageScraper.searchImagesRun att jitter [] =
      ⟨0, [], Except.error none⟩ := rfl

/-- C9: if the decode/re-encode oracle fails on the downloaded buffer, both
pipelines' `processImage` return the original bytes unmodified (the `catch`
branch), and the transform step never fails the candidate (the function is
total). -/
theorem C9_transform_failure_falls_back_to_original
    (sharpEncode : Bytes → Except String Bytes)
    (composite : Bytes → String → Except String Bytes)
    (imageBuffer : Bytes) (watermarkText : Option String) (e : String)
    (hfail : sharpEncode imageBuffer = Except.error e) :
    VPSImageStorage.processImage sharpEncode composite imageBuffer watermarkText = imageBuffer ∧
    FirebaseStorageService.processImage sharpEncode imageBuffer = imageBuffer := by
  unfold VPSImageStorage.processImage FirebaseStorageService.processImage
  rw [hfail]
  exact ⟨rfl, rfl⟩

/-- C9 witness: the fallback evaluated on a concrete failing encoder. -/
theorem C9_witness :
    failingEncoder [1, 2, 3] = Except.error "Input buffer contains unsupported image format" ∧
    (VPSImageStorage.processImage failingEncoder sampleComposite [1, 2, 3] (some "brand") = [1, 2, 3] ∧
     FirebaseStorageService.processImage failingEncoder [1, 2, 3] = [1, 2, 3]) :=
  ⟨rfl, C9_transform_failure_falls_back_to_original failingEncoder sampleComposite
    [1, 2, 3] (some "brand") "Input buffer contains unsupported image format" rfl⟩

/-- C10 counterexample: the claim says a count below 1 is normalized to 1, but
`parseInt(0) || 3` takes the falsy branch, so a request with `count = 0` runs
with 3 images, not 1. -/
theorem C10_counterexample_count_zero_becomes_three :
    Index.validateSearchRequest (some "sunset") (Index.CountInput.numeric 0) = Except.ok 3 ∧
    (3 : Int) ≠ 1 := ⟨rfl, by decide⟩

/-- C10 amended: with a valid keyword the request is never rejected because of
`count`; missing or non-numeric counts become 3, a count parsing to 0 also
becomes 3 (0 is falsy in `parseInt(count) || 3`), other values below 1 become 1,
values above 10 become 10, and in-range values pass through. -/
theorem C10_count_is_normalized_never_rejected (keyword : String) (count : Index.CountInput)
    (h1 : keyword ≠ "") (h2 : 2 ≤ (jsTrim keyword).length) :
    Index.validateSearchRequest (some keyword) count = Except.ok (Index.imageCount count) ∧
    1 ≤ Index.imageCount count ∧ Index.imageCount count ≤ 10 ∧
    Index.imageCount count =
      (match count with
       | .missing => 3
       | .notNumeric => 3
       | .numeric n => if n = 0 then 3 else if n < 1 then 1 else if 10 < n then 10 else n) := by
  have hv : Index.validateSearchRequest (some keyword) count =
      Except.ok (Index.imageCount count) := by
    show (if keyword = "" then Except.error Index.RequestRejection.invalidKeyword
      else if (jsTrim keyword).length < 2 then Except.error Index.RequestRejection.keywordTooShort
      else Except.ok (Index.imageCount count)) = Except.ok (Index.imageCount count)
    rw [if_neg h1, if_neg (by omega)]
  refine ⟨hv, ?_⟩
  cases count with
  | missing => exact ⟨by decide, by decide, by decide⟩
  | notNumeric => exact ⟨by decide, by decide, by decide⟩
  | numeric n =>
    simp only [Index.imageCount, Index.parsedCount]
    split_ifs <;> omega

/-- C10 witness: a valid keyword with an oversized count is accepted and clamped. -/
theorem C10_witness :
    "sunset" ≠ "" ∧ 2 ≤ (jsTrim "sunset").length ∧
    (Index.validateSearchRequest (some "sunset") (Index.CountInput.numeric 12) =
        Except.ok (Index.imageCount (Index.CountInput.numeric 12)) ∧
      1 ≤ Index.imageCount (Index.CountInput.numeric 12) ∧
      Index.imageCount (Index.CountInput.numeric 12) ≤ 10 ∧
      Index.imageCount (Index.CountInput.numeric 12) =
        (if (12 : Int) = 0 then 3 else if (12 : Int) < 1 then 1
         else if (10 : Int) < 12 then 10 else 12)) :=
  ⟨by decide, by decide,
   C10_count_is_normalized_never_rejected "sunset" (Index.CountInput.numeric 12)
     (by decide) (by decide)⟩

/-- C6 counterexample: `isValidImageUrl` accepts a URL whose scheme is neither
`http` nor `https` — the code only checks `url.startsWith('http')`, so the
claim's "scheme is http or https" condition is not what the filter enforces. -/
theorem C6_counterexample_scheme_not_enforced :
    ImageScraper.isValidImageUrl "httpfake://mypic.example/ab" = true ∧
    urlSchemeIsHttpOrHttps "httpfake://mypic.example/ab" = false := by decide

/-- C6 amended: a URL (surviving the earlier checks) is kept iff it starts with
the literal prefix `http` (not necessarily an http/https scheme), AND contains an
image-indicating keyword or a recognized image extension (case-insensitively),
AND its length exceeds 10. -/
theorem C6_amended_keep_characterization (url : String) :
    ImageScraper.isValidImageUrl url = true ↔
      (strStartsWith url "http" = true ∧
       (containsImageIndicatingKeyword url = true ∨
         ImageScraper.hasImageExtension url = true) ∧
       url.length > 10) := by
  unfold ImageScraper.isValidImageUrl ImageScraper.isLikelyImage containsImageIndicatingKeyword
  by_cases h : url = ""
  · subst h; decide
  · rw [if_neg h]
    cases hs : strStartsWith url "http" with
    | false => simp
    | true =>
      simp only [Bool.not_true, Bool.false_eq_true, if_false, Bool.and_eq_true,
        Bool.or_eq_true, decide_eq_true_eq, true_and]
      try tauto

/-- C3 counterexample: in the constructor state (user-agent cursor 0), the two
requests of a single attempt share the drawn proxy but use different user agents
— `createAxiosConfig` advances the user-agent rotation for each request. -/
theorem C3_counterexample_user_agents_differ :
    (ImageScraper.attemptConfigs sampleScraperState).1.proxy =
      (ImageScraper.attemptConfigs sampleScraperState).2.1.proxy ∧
    (ImageScraper.attemptConfigs sampleScraperState).1.userAgent ≠
      (ImageScraper.attemptConfigs sampleScraperState).2.1.userAgent :=
  ⟨rfl, by decide⟩

/-- C3 amended: within one attempt the proxy is drawn once and shared by the HTML
page request and the JSON API request, but each request draws the next user agent
from the rotation, so they use consecutive pool entries — distinct whenever the
pool has at least two (distinct) entries. -/
theorem C3_same_proxy_but_consecutive_user_agents (s : ImageScraper.ScraperState)
    (hua : s.currentUserAgentIndex < s.userAgents.length)
    (hnodup : s.userAgents.Nodup) (hlen : 2 ≤ s.userAgents.length) :
    (ImageScraper.attemptConfigs s).1.proxy = (ImageScraper.attemptConfigs s).2.1.proxy ∧
    (ImageScraper.attemptConfigs s).1.userAgent =
      s.userAgents.getD s.currentUserAgentIndex "" ∧
    (ImageScraper.attemptConfigs s).2.1.userAgent =
      s.userAgents.getD ((s.currentUserAgentIndex + 1) % s.userAgents.length) "" ∧
    (ImageScraper.attemptConfigs s).1.userAgent ≠
      (ImageScraper.attemptConfigs s).2.1.userAgent := by
  refine ⟨rfl, rfl, rfl, ?_⟩
  have hlen0 : 0 < s.userAgents.length := by omega
  have hmod : (s.currentUserAgentIndex + 1) % s.userAgents.length < s.userAgents.length :=
    Nat.mod_lt _ hlen0
  intro heq
  have heq' : s.userAgents.getD s.currentUserAgentIndex "" =
      s.userAgents.getD ((s.currentUserAgentIndex + 1) % s.userAgents.length) "" := heq
  rw [List.getD_eq_getElem _ _ hua, List.getD_eq_getElem _ _ hmod] at heq'
  have hidx : s.currentUserAgentIndex = (s.currentUserAgentIndex + 1) % s.userAgents.length :=
    (List.Nodup.getElem_inj_iff hnodup).mp heq'
  rcases Nat.lt_or_ge (s.currentUserAgentIndex + 1) s.userAgents.length with hlt | hge
  · rw [Nat.mod_eq_of_lt hlt] at hidx; omega
  · have : s.currentUserAgentIndex + 1 = s.userAgents.length := by omega
    rw [this, Nat.mod_self] at hidx
    omega

/-- C3 witness: the amended behaviour evaluated at the constructor state with the
real user-agent pool. -/
theorem C3_witness :
    sampleScraperState.currentUserAgentIndex < sampleScraperState.userAgents.length ∧
    sampleScraperState.userAgents.Nodup ∧
    2 ≤ sampleScraperState.userAgents.length ∧
    ((ImageScraper.attemptConfigs sampleScraperState).1.proxy =
        (ImageScraper.attemptConfigs sampleScraperState).2.1.proxy ∧
      (ImageScraper.attemptConfigs sampleScraperState).1.userAgent =
        sampleScraperState.userAgents.getD sampleScraperState.currentUserAgentIndex "" ∧
      (ImageScraper.attemptConfigs sampleScraperState).2.1.userAgent =
        sampleScraperState.userAgents.getD
          ((sampleScraperState.currentUserAgentIndex + 1) %
            sampleScraperState.userAgents.length) "" ∧
      (ImageScraper.attemptConfigs sampleScraperState).1.userAgent ≠
        (ImageScraper.attemptConfigs sampleScraperState).2.1.userAgent) :=
  ⟨by decide, by decide, by decide,
   C3_same_proxy_but_consecutive_user_agents sampleScraperState
     (by decide) (by decide) (by decide)⟩

/-! ### Helper lemmas -/

/-- `hay.startsWith(p)` holds when `hay` literally begins with `p` (char lists). -/
theorem strHasPrefixL_append (p t : List Char) : strHasPrefixL (p ++ t) p = true := by
  induction p with
  | nil => simp [strHasPrefixL]
  | cons a as ih => simp [strHasPrefixL, ih]

/-- `(p ++ rest).startsWith(p)` for strings. -/
theorem strStartsWith_append (p rest : String) : strStartsWith (p ++ rest) p = true := by
  unfold strStartsWith
  rw [String.data_append]
  exact strHasPrefixL_append p.data rest.data

/-- Invariant of the `processImageResults` loop: the accumulator never grows past
`limit`, and every accumulated candidate has a non-empty image URL and clean
(non-Wikipedia) image and source URLs. -/
theorem processResultsGo_invariant (limit : Nat) (results : List ImageScraper.RawResult)
    (acc : List ImageScraper.ImageCandidate)
    (hlen : acc.length ≤ limit)
    (hprop : ∀ c ∈ acc, c.url ≠ "" ∧ ImageScraper.isWikipediaSource (some c.url) = false ∧
      ImageScraper.isWikipediaSource c.source = false) :
    (ImageScraper.processResultsGo limit results acc).length ≤ limit ∧
    ∀ c ∈ ImageScraper.processResultsGo limit results acc,
      c.url ≠ "" ∧ ImageScraper.isWikipediaSource (some c.url) = false ∧
        ImageScraper.isWikipediaSource c.source = false := by
  induction results generalizing acc with
  | nil => exact ⟨hlen, hprop⟩
  | cons r rest ih =>
    show (ImageScraper.processResultsGo limit (r :: rest) acc).length ≤ limit ∧ _
    unfold ImageScraper.processResultsGo
    by_cases hb : limit ≤ acc.length
    · rw [if_pos hb]; exact ⟨hlen, hprop⟩
    · rw [if_neg hb]
      cases himg : r.image with
      | none => exact ih acc hlen hprop
      | some imageUrl =>
        dsimp only
        by_cases hemp : imageUrl = ""
        · rw [if_pos hemp]; exact ih acc hlen hprop
        · rw [if_neg hemp]
          by_cases hwiki : (ImageScraper.isWikipediaSource r.url ||
              ImageScraper.isWikipediaSource (some imageUrl)) = true
          · rw [if_pos hwiki]; exact ih acc hlen hprop
          · rw [if_neg hwiki]
            by_cases hvalid : ImageScraper.isValidImageUrl imageUrl = true
            · rw [if_pos hvalid]
              apply ih
              · simp only [List.length_append, List.length_singleton]
                omega
              · intro c hc
                rcases List.mem_append.mp hc with hmem | hmem
                · exact hprop c hmem
                · rcases List.mem_singleton.mp hmem with rfl
                  have hor := Bool.or_eq_false_iff.mp (Bool.eq_false_iff.mpr hwiki)
                  exact ⟨hemp, hor.2, hor.1⟩
            · rw [if_neg hvalid]
              exact ih acc hlen hprop

/-! ### C4 -/

/-- C4: for every raw result list and every limit in 1..10, `processImageResults`
returns at most `limit` candidates, every returned candidate carries a non-empty
image URL (entries with no image URL are dropped), and no returned candidate's
image or source URL case-insensitively contains an excluded-domain marker
(`wikipedia.org`, `wikimedia.org`, or the substring `wiki`). -/
theorem C4_filter_bounded_and_excludes_wikipedia (results : List ImageScraper.RawResult)
    (limit : Nat) (h1 : 1 ≤ limit) (h2 : limit ≤ 10) :
    (ImageScraper.processImageResults results limit).length ≤ limit ∧
    ∀ c ∈ ImageScraper.processImageResults results limit,
      c.url ≠ "" ∧ ImageScraper.isWikipediaSource (some c.url) = false ∧
        ImageScraper.isWikipediaSource c.source = false := by
  have h10 : limit ≤ 10 := h2
  have h1' : 1 ≤ limit := h1
  exact processResultsGo_invariant limit results []
    (by simp) (by intro c hc; cases hc)

/-- Sample raw results: a no-image entry, a Wikipedia entry, and three valid
entries. -/
def rawSampleResults : List ImageScraper.RawResult :=
  [{ image := none, url := some "http://x.example/page", title := some "no image" },
   { image := some "http://upload.wikimedia.org/a.jpg",
     url := some "http://en.wikipedia.org/wiki/A", title := some "wiki" },
   { image := some "http://cdn.example.com/photo1.jpg",
     url := some "http://site.example/a", title := some "ok1" },
   { image := some "http://cdn.example.com/image2.png", url := none, title := none },
   { image := some "http://cdn.example.com/pic3.gif",
     url := some "http://site.example/c", title := some "ok3" }]

/-- C4 witness: the bound and exclusion evaluated at a concrete result list
containing a Wikipedia-flagged entry and a missing-image entry, with limit 2. -/
theorem C4_witness :
    1 ≤ 2 ∧ 2 ≤ 10 ∧
    ((ImageScraper.processImageResults rawSampleResults 2).length ≤ 2 ∧
     ∀ c ∈ ImageScraper.processImageResults rawSampleResults 2,
       c.url ≠ "" ∧ ImageScraper.isWikipediaSource (some c.url) = false ∧
         ImageScraper.isWikipediaSource c.source = false) :=
  ⟨by decide, by decide,
   C4_filter_bounded_and_excludes_wikipedia rawSampleResults 2 (by decide) (by decide)⟩

/-! ### C5 -/

/-- C5 counterexample: the VPS pipeline (the one the endpoint uses) derives the
storage key `{timestamp}_{uuid}_{index+1}.webp` for keyword `sunset` — it does
not begin with the sanitized keyword as a path prefix. -/
theorem C5_counterexample_key_lacks_keyword_prefix :
    VPSImageStorage.storageFilename 1700000000000 "abc123" 0 =
      "1700000000000_abc123_1.webp" ∧
    strStartsWith (VPSImageStorage.storageFilename 1700000000000 "abc123" 0)
      (sanitizedKeyword "sunset" ++ "/") = false := by decide

/-- C5 amended: the VPS pipeline's storage key is
`{timestamp}_{short-id}_{index+1}.webp`, independent of the keyword (the keyword
argument is ignored); the Firebase variant's key is
`images/{sanitized-keyword}/{timestamp}_{short-id}_{index+1}.jpg`, which contains
the sanitized keyword as a path segment but begins with the fixed `images/`
prefix, not with the keyword. -/
theorem C5_vps_key_ignores_keyword_firebase_key_nests_it
    (keyword keyword2 : String) (index timestamp : Nat) (uuid : String)
    (uploadDir baseUrl : String) :
    VPSImageStorage.generateFilePaths uploadDir baseUrl keyword index timestamp uuid =
      VPSImageStorage.generateFilePaths uploadDir baseUrl keyword2 index timestamp uuid ∧
    FirebaseStorageService.generateFilename keyword index timestamp uuid =
      "images/" ++ sanitizedKeyword keyword ++ "/" ++ toString timestamp ++ "_" ++ uuid ++
        "_" ++ toString (index + 1) ++ ".jpg" ∧
    strStartsWith (FirebaseStorageService.generateFilename keyword index timestamp uuid)
      ("images/" ++ sanitizedKeyword keyword ++ "/") = true := by
  refine ⟨rfl, rfl, ?_⟩
  have hsplit : FirebaseStorageService.generateFilename keyword index timestamp uuid =
      ("images/" ++ sanitizedKeyword keyword ++ "/") ++
        (toString timestamp ++ "_" ++ uuid ++ "_" ++ toString (index + 1) ++ ".jpg") := by
    unfold FirebaseStorageService.generateFilename
    simp [String.append_assoc]
  rw [hsplit]
  exact strStartsWith_append _ _

/-! ### C2 -/

/-- Length accounting for the pipeline: stored results plus per-candidate
failures cover the whole input list. -/
theorem processMultipleImages_length_add
    (f : ImageScraper.ImageCandidate → Nat → Option String)
    (cs : List ImageScraper.ImageCandidate) (i : Nat) :
    (VPSImageStorage.processMultipleImages f cs i).length +
      VPSImageStorage.countFailures f cs i = cs.length := by
  induction cs generalizing i with
  | nil => rfl
  | cons c rest ih =>
    unfold VPSImageStorage.processMultipleImages VPSImageStorage.countFailures
    cases hf : f c i with
    | some u =>
      have := ih (i + 1)
      simp only [hf, List.length_cons]
      simp only [reduceCtorEq, if_false]
      omega
    | none =>
      have := ih (i + 1)
      simp only [hf, List.length_cons, if_true]
      omega

/-- Every candidate whose `downloadAndStoreImage` succeeds contributes its stored
record to the pipeline's output. -/
theorem processMultipleImages_mem_of_success
    (f : ImageScraper.ImageCandidate → Nat → Option String)
    (cs : List ImageScraper.ImageCandidate) :
    ∀ (start i : Nat) (hi : i < cs.length) (u : String),
      f (cs.get ⟨i, hi⟩) (start + i) = some u →
      VPSImageStorage.uploadResultOf (cs.get ⟨i, hi⟩) u ∈
        VPSImageStorage.processMultipleImages f cs start := by
  induction cs with
  | nil => intro start i hi; exact absurd hi (by simp)
  | cons c rest ih =>
    intro start i hi u hf
    cases i with
    | zero =>
      have hf0 : f c start = some u := by simpa using hf
      have hres : VPSImageStorage.processMultipleImages f (c :: rest) start =
          VPSImageStorage.uploadResultOf c u ::
            VPSImageStorage.processMultipleImages f rest (start + 1) := by
        simp only [VPSImageStorage.processMultipleImages, hf0]
      rw [hres]
      exact List.mem_cons_self _ _
    | succ k =>
      have hk : k < rest.length := by simpa using hi
      have hf' : f (rest.get ⟨k, hk⟩) ((start + 1) + k) = some u := by
        have : start + (k + 1) = (start + 1) + k := by omega
        rw [← this]
        simpa using hf
      have hmem := ih (start + 1) k hk u hf'
      unfold VPSImageStorage.processMultipleImages
      cases hfc : f c start with
      | some p => exact List.mem_cons_of_mem _ hmem
      | none => exact hmem

/-- C2: the pipeline never fails as a whole (it is a total function into the list
of stored results); when exactly one of the N candidates fails, it returns
exactly N - 1 stored results, and every successful candidate's stored record is
present — only the failing candidate is dropped. -/
theorem C2_pipeline_drops_only_failing_candidate
    (f : ImageScraper.ImageCandidate → Nat → Option String)
    (cs : List ImageScraper.ImageCandidate)
    (hone : VPSImageStorage.countFailures f cs 0 = 1) :
    (VPSImageStorage.processMultipleImages f cs 0).length = cs.length - 1 ∧
    ∀ (i : Nat) (hi : i < cs.length) (u : String), f (cs.get ⟨i, hi⟩) i = some u →
      VPSImageStorage.uploadResultOf (cs.get ⟨i, hi⟩) u ∈
        VPSImageStorage.processMultipleImages f cs 0 := by
  constructor
  · have := processMultipleImages_length_add f cs 0
    omega
  · intro i hi u hf
    exact processMultipleImages_mem_of_success f cs 0 i hi u (by simpa using hf)

/-- Three concrete candidates for the partial-failure scenario. -/
def sampleCandidates : List ImageScraper.ImageCandidate :=
  [{ url := "http://cdn.example.com/photo1.jpg", source := some "http://site.example/a",
     title := "A" },
   { url := "http://cdn.example.com/image2.png", source := none, title := "" },
   { url := "http://cdn.example.com/pic3.gif", source := some "http://site.example/c",
     title := "C" }]

/-- A per-candidate outcome where only the candidate at index 1 fails (its
download times out); the others store successfully. -/
def sampleDownloadAndStore : ImageScraper.ImageCandidate → Nat → Option String :=
  fun _ index =>
    if index = 1 then none
    else some ("http://localhost:3000/images/stored_" ++ toString (index + 1) ++ ".webp")

/-- C2 witness: with 3 candidates and only index 1 failing, the pipeline stores
exactly 2 results and keeps every successful candidate. -/
theorem C2_witness :
    VPSImageStorage.countFailures sampleDownloadAndStore sampleCandidates 0 = 1 ∧
    ((VPSImageStorage.processMultipleImages sampleDownloadAndStore sampleCandidates 0).length =
        sampleCandidates.length - 1 ∧
      ∀ (i : Nat) (hi : i < sampleCandidates.length) (u : String),
        sampleDownloadAndStore (sampleCandidates.get ⟨i, hi⟩) i = some u →
        VPSImageStorage.uploadResultOf (sampleCandidates.get ⟨i, hi⟩) u ∈
          VPSImageStorage.processMultipleImages sampleDownloadAndStore sampleCandidates 0) :=
  ⟨by decide,
   C2_pipeline_drops_only_failing_candidate sampleDownloadAndStore sampleCandidates (by decide)⟩

/-! ### C7 -/

/-- In a run where every attempt fails, the backoffs slept by the retry loop are
`waitTime attempt jitter(attempt)` for each non-final attempt, in order. -/
theorem searchGo_waits_all_fail (Res : Type) (att : Nat → Except String Res)
    (jitter : Nat → Nat) (hfail : ∀ i, ∃ e, att i = Except.error e) :
    ∀ (fuel attempt : Nat) (lastErr : Option String) (waits : List Nat),
      (ImageScraper.searchGo att jitter fuel attempt lastErr waits).waits =
        waits ++ (List.range (fuel - 1)).map
          (fun k => ImageScraper.waitTime (attempt + k) (jitter (attempt + k))) := by
  intro fuel
  induction fuel with
  | zero => intro attempt lastErr waits; simp [ImageScraper.searchGo]
  | succ fuel ih =>
    intro attempt lastErr waits
    obtain ⟨e, he⟩ := hfail attempt
    simp only [ImageScraper.searchGo, he]
    by_cases hf : fuel = 0
    · subst hf; simp
    · rw [if_neg hf, ih]
      have hshift : (List.range (fuel + 1 - 1)).map
          (fun k => ImageScraper.waitTime (attempt + k) (jitter (attempt + k))) =
        ImageScraper.waitTime attempt (jitter attempt) ::
          (List.range (fuel - 1)).map
            (fun k => ImageScraper.waitTime (attempt + 1 + k) (jitter (attempt + 1 + k))) := by
        obtain ⟨m, rfl⟩ : ∃ m, fuel = m + 1 := ⟨fuel - 1, by omega⟩
        simp only [Nat.add_sub_cancel]
        rw [List.range_succ_eq_map, List.map_cons, List.map_map]
        refine congrArg₂ _ (by rw [Nat.add_zero]) ?_
        apply List.map_congr_left
        intro k _
        simp only [Function.comp_apply]
        have h1 : attempt + Nat.succ k = attempt + 1 + k := by omega
        rw [h1]
      rw [hshift, List.append_assoc, List.singleton_append]

/-- C7 counterexample: with an always-failing attempt and jitter draws 1999 then
0, the loop sleeps 3999ms before attempt 2 but only 3000ms before attempt 3 —
the backoff sequence is not non-decreasing. -/
theorem C7_counterexample_backoff_decreases :
    (ImageScraper.searchImagesRun alwaysFailAttempt decreasingJitter
        ["http://p1", "http://p2", "http://p3"]).waits = [3999, 3000] ∧
    ¬ List.Chain' (· ≤ ·)
      ((ImageScraper.searchImagesRun alwaysFailAttempt decreasingJitter
          ["http://p1", "http://p2", "http://p3"]).waits) := by
  refine ⟨rfl, ?_⟩
  intro h
  rw [show (ImageScraper.searchImagesRun alwaysFailAttempt decreasingJitter
      ["http://p1", "http://p2", "http://p3"]).waits = [3999, 3000] from rfl] at h
  exact absurd (List.chain'_cons.mp h).1 (by omega)

/-- C7 amended: in an all-attempts-fail run the backoff before attempt `i + 2` is
exactly `base + attempt * step + jitter` (base 2000ms, step 1000ms, jitter below
2000ms); because consecutive jitter draws are independent, the sequence need not
be non-decreasing — a sleep can undercut its predecessor by up to 999ms
(`waitTime (i+1) + 999 ≥ waitTime i` is the tight bound) — and it is strictly
increasing whenever the jitter draws are equal. -/
theorem C7_backoff_formula_and_bounds (Res : Type) (att : Nat → Except String Res)
    (jitter : Nat → Nat) (proxies : List String)
    (hfail : ∀ i, ∃ e, att i = Except.error e)
    (hjit : ∀ i, jitter i < 2000) :
    (ImageScraper.searchImagesRun att jitter proxies).waits =
      (List.range (min 8 proxies.length - 1)).map
        (fun i => ImageScraper.waitTime i (jitter i)) ∧
    (∀ i, ImageScraper.waitTime i (jitter i) ≤
      ImageScraper.waitTime (i + 1) (jitter (i + 1)) + 999) ∧
    ((∀ i j, jitter i = jitter j) → List.Chain' (· < ·)
      ((ImageScraper.searchImagesRun att jitter proxies).waits)) := by
  have hwaits : (ImageScraper.searchImagesRun att jitter proxies).waits =
      (List.range (min 8 proxies.length - 1)).map
        (fun i => ImageScraper.waitTime i (jitter i)) := by
    unfold ImageScraper.searchImagesRun
    rw [searchGo_waits_all_fail Res att jitter hfail]
    simp
  refine ⟨hwaits, ?_, ?_⟩
  · intro i
    have := hjit i
    simp only [ImageScraper.waitTime]
    omega
  · intro hconst
    rw [hwaits, List.chain'_map]
    cases hm : min 8 proxies.length - 1 with
    | zero => simp
    | succ t =>
      rw [List.chain'_range_succ]
      intro m _
      have hc := hconst m (m + 1)
      simp only [ImageScraper.waitTime, Nat.succ_eq_add_one]
      omega

/-- C7 witness: the amended backoff law at a three-proxy pool, an always-failing
attempt and a constant jitter of 100ms. -/
theorem C7_witness :
    (∀ i, ∃ e, alwaysFailAttempt i = Except.error e) ∧
    (∀ i, constJitter i < 2000) ∧
    ((ImageScraper.searchImagesRun alwaysFailAttempt constJitter
        ["http://p1", "http://p2", "http://p3"]).waits =
      (List.range (min 8 (["http://p1", "http://p2", "http://p3"] : List String).length - 1)).map
        (fun i => ImageScraper.waitTime i (constJitter i)) ∧
    (∀ i, ImageScraper.waitTime i (constJitter i) ≤
      ImageScraper.waitTime (i + 1) (constJitter (i + 1)) + 999) ∧
    ((∀ i j, constJitter i = constJitter j) → List.Chain' (· < ·)
      ((ImageScraper.searchImagesRun alwaysFailAttempt constJitter
          ["http://p1", "http://p2", "http://p3"]).waits))) :=
  ⟨fun _ => ⟨_, rfl⟩, fun _ => show (100 : Nat) < 2000 by omega,
   C7_backoff_formula_and_bounds (List ImageScraper.ImageCandidate) alwaysFailAttempt
     constJitter ["http://p1", "http://p2", "http://p3"]
     (fun _ => ⟨_, rfl⟩) (fun _ => show (100 : Nat) < 2000 by omega)⟩

/-! ### C8 -/

/-- The outputs of `n ≤ pool size` successive `getNextUserAgent()` calls starting
at an in-range cursor `j` are the first `n` entries of the pool rotated to start
at `j`. -/
theorem uaRotationOutputs_eq_take (l : List String) :
    ∀ (n : Nat), n ≤ l.length → ∀ (j : Nat), j < l.length →
      ImageScraper.uaRotationOutputs l j n = ((l.drop j) ++ l.take j).take n := by
  intro n
  induction n with
  | zero => intro _ j _; simp [ImageScraper.uaRotationOutputs]
  | succ n ih =>
    intro hn j hj
    simp only [ImageScraper.uaRotationOutputs, ImageScraper.getNextUserAgent]
    rw [List.getD_eq_getElem l "" hj]
    rw [List.drop_eq_getElem_cons hj]
    simp only [List.cons_append, List.take_succ_cons]
    refine congrArg _ ?_
    rcases Nat.lt_or_ge (j + 1) l.length with hlt | hge
    · rw [Nat.mod_eq_of_lt hlt, ih (by omega) (j + 1) hlt]
      have htake : l.take (j + 1) = l.take j ++ [l[j]] := by
        rw [← List.concat_eq_append]
        exact (List.take_concat_get l j hj).symm
      rw [htake, ← List.append_assoc, List.take_append_of_le_length]
      simp
      omega
    · have hj1 : j + 1 = l.length := by omega
      rw [hj1, Nat.mod_self, ih (by omega) 0 (by omega)]
      rw [List.drop_length]
      simp only [List.drop_zero, List.take_zero, List.append_nil, List.nil_append]
      rw [List.take_take]
      refine congrArg₂ _ ?_ rfl
      omega

/-- Pool-size many successive `getNextUserAgent()` calls return a permutation of
the pool: each entry exactly once before any repeat. -/
theorem uaRotationOutputs_perm (l : List String) (j : Nat) (hj : j < l.length) :
    List.Perm (ImageScraper.uaRotationOutputs l j l.length) l := by
  rw [uaRotationOutputs_eq_take l l.length (Nat.le_refl _) j hj]
  have hlen : (l.drop j ++ l.take j).length = l.length := by
    simp
    omega
  rw [← hlen, List.take_length]
  have h1 : List.Perm (l.drop j ++ l.take j) (l.take j ++ l.drop j) :=
    List.perm_append_comm
  have h2 : l.take j ++ l.drop j = l := List.take_append_drop j l
  rw [h2] at h1
  exact h1

/-- On a non-empty pool, `getNextProxy()` behaves as the user-agent rotator with
each output wrapped in `some`. -/
theorem proxyRotationOutputs_eq_map_some (l : List String) (hne : l ≠ []) :
    ∀ (n j : Nat), ImageScraper.proxyRotationOutputs l j n =
      (ImageScraper.uaRotationOutputs l j n).map some := by
  intro n
  induction n with
  | zero => intro j; rfl
  | succ n ih =>
    intro j
    simp only [ImageScraper.proxyRotationOutputs, ImageScraper.uaRotationOutputs,
      ImageScraper.getNextProxy, ImageScraper.getNextUserAgent]
    rw [if_neg (fun h => hne (List.length_eq_zero.mp h))]
    simp [ih]

/-- C8: from any reachable cursor, pool-size many successive `getNextUserAgent()`
calls return each user agent exactly once before any repeat (their outputs are a
permutation of the pool), and independently, for a non-empty proxy pool,
pool-size many successive `getNextProxy()` calls return each proxy exactly once. -/
theorem C8_rotation_cycles (userAgents proxies : List String) (i j : Nat)
    (hi : i < userAgents.length) (hne : proxies ≠ []) (hj : j < proxies.length) :
    List.Perm (ImageScraper.uaRotationOutputs userAgents i userAgents.length) userAgents ∧
    List.Perm (ImageScraper.proxyRotationOutputs proxies j proxies.length)
      (proxies.map some) := by
  refine ⟨uaRotationOutputs_perm userAgents i hi, ?_⟩
  rw [proxyRotationOutputs_eq_map_some proxies hne]
  exact (uaRotationOutputs_perm proxies j hj).map some

/-- C8 witness: the cycle property at the real five-entry user-agent pool and a
two-proxy pool, both from cursor 0. -/
theorem C8_witness :
    0 < ImageScraper.defaultUserAgents.length ∧
    (["http://p1", "http://p2"] : List String) ≠ [] ∧
    0 < (["http://p1", "http://p2"] : List String).length ∧
    (List.Perm (ImageScraper.uaRotationOutputs ImageScraper.defaultUserAgents 0
        ImageScraper.defaultUserAgents.length) ImageScraper.defaultUserAgents ∧
      List.Perm (ImageScraper.proxyRotationOutputs ["http://p1", "http://p2"] 0
        (["http://p1", "http://p2"] : List String).length)
        ((["http://p1", "http://p2"] : List String).map some)) :=
  ⟨by decide, by decide, by decide,
   C8_rotation_cycles ImageScraper.defaultUserAgents ["http://p1", "http://p2"] 0 0
     (by decide) (by decide) (by decide)⟩

end MineScrapper

